import Mathlib

/-
Verification of the libp2p_bug_example harness (src/main.rs) against its
specification.  The repository is a single Rust file: a request_response
codec that streams message_size_in_kilobyte chunks of 1024 bytes, and an
event loop in main that issues one request per established connection and
reports which of "response fully received" and "connection closed" happened
first.

Embedding conventions:
- A byte stream is the list of bytes the transport delivers before
  end-of-stream; bytes are natural numbers (the code never inspects them).
- Fallible operations return Option: none is an io error (for the codec,
  the UnexpectedEof produced by read_exact when the stream closes early).
- The Rust read functions return Ok(()); the embedding additionally returns
  the bytes that passed through the read buffer and the unread rest of the
  stream, so that consumption and round-trip properties can be stated.
- The event loop is embedded as a fold over the finite list of swarm events
  a run delivers, acting on the got_response flag and emitting the
  behaviour commands and console messages of each arm.
-/

namespace Libp2pBugExample

/-- One read_exact call (futures AsyncReadExt) with a buffer of the given
size, on a stream modelled as the list of bytes available before
end-of-stream: it succeeds with the bytes read and the rest of the stream
exactly when enough bytes are available, and fails with UnexpectedEof
otherwise. -/
def readExact (count : Nat) (s : List Nat) : Option (List Nat × List Nat) :=
  if count ≤ s.length then some (s.take count, s.drop count) else none

/-- Codec.read_response (src/main.rs lines 56-69): a loop of
message_size_in_kilobyte read_exact calls with a 1024-byte buffer, the
first failure aborting the whole read via the question-mark operator
(modelled by Option.bind). -/
def read_response (message_size_in_kilobyte : Nat) (s : List Nat) :
    Option (List Nat × List Nat) :=
  match message_size_in_kilobyte with
  | 0 => some ([], s)
  | Nat.succ m =>
    (readExact 1024 s).bind fun chunkRest =>
      (read_response m chunkRest.2).map fun bytesRest =>
        (chunkRest.1 ++ bytesRest.1, bytesRest.2)

/-- Codec.write_response (src/main.rs lines 83-97): a loop of
message_size_in_kilobyte write_all calls, each writing a 1024-byte buffer
filled with the byte 1; the value is the full sequence of bytes written to
the stream. -/
def write_response : Nat → List Nat
  | 0 => []
  | Nat.succ m => List.replicate 1024 1 ++ write_response m

/-- Codec.read_request (src/main.rs lines 49-54): reads nothing from the
stream and returns Ok; the size parameter of the codec is unused. -/
def read_request (message_size_in_kilobyte : Nat) (s : List Nat) :
    Option (List Nat × List Nat) :=
  some ([], s)

/-- Codec.write_request (src/main.rs lines 71-81): writes nothing to the
stream and returns Ok; the size parameter of the codec is unused. -/
def write_request (message_size_in_kilobyte : Nat) : List Nat :=
  []

/-- Transport-level events matched by the event loop in main (src/main.rs
lines 139-171).  Peers are natural numbers; the code treats the peer id as
opaque.  The constructor other stands for every SwarmEvent handled by the
wildcard arm. -/
inductive Event where
  | connectionEstablished : Nat → Event
  | inboundRequest : Nat → Event
  | response : Nat → Event
  | connectionClosed : Nat → Event
  | other : Event
deriving DecidableEq

/-- Observable actions of one iteration of the event loop: the two commands
issued to the request_response behaviour, and the two console outcome
messages (responseObserved is the println of the Response arm, and
closedBeforeResponse is the println of the ConnectionClosed arm). -/
inductive Output where
  | sendRequest : Nat → Output
  | sendResponse : Output
  | responseObserved : Output
  | closedBeforeResponse : Output
deriving DecidableEq

/-- Whether an output is one of the two human-readable race-outcome
messages. -/
def isOutcome : Output → Bool
  | Output.responseObserved => true
  | Output.closedBeforeResponse => true
  | _ => false

/-- Whether an event is a Message::Response swarm event. -/
def isResponseEvent : Event → Bool
  | Event.response _ => true
  | _ => false

/-- Whether an event is a SwarmEvent::ConnectionClosed. -/
def isClosedEvent : Event → Bool
  | Event.connectionClosed _ => true
  | _ => false

/-- Whether an event is a SwarmEvent::ConnectionEstablished. -/
def isEstablishedEvent : Event → Bool
  | Event.connectionEstablished _ => true
  | _ => false

/-- One iteration of the event loop in main (src/main.rs lines 139-171),
acting on the got_response flag.  send_request is the CLI flag; sendOk
tells whether the send_response call of the Request arm would succeed: its
result is unwrapped, so a failure panics, modelled as none. -/
def step (send_request : Bool) (sendOk : Bool) (g : Bool) :
    Event → Option (Bool × List Output)
  | Event.connectionEstablished p =>
      some (g, if send_request then [Output.sendRequest p] else [])
  | Event.inboundRequest _ =>
      if sendOk then some (g, [Output.sendResponse]) else none
  | Event.response _ => some (true, [Output.responseObserved])
  | Event.connectionClosed _ =>
      some (g, if !g && send_request then [Output.closedBeforeResponse] else [])
  | Event.other => some (g, [])

/-- Result of running the event loop over a finite event list: the outputs
emitted in order, whether the run aborted on a panicking unwrap, and the
final value of got_response. -/
structure RunResult where
  outputs : List Output
  aborted : Bool
  finalGot : Bool
deriving DecidableEq

/-- The event loop of main as a fold over the event list.  The function
sends gives, for each position in the list, whether a send_response call
issued at that position would succeed; only the Request arm consults it.
An abort (panicking unwrap) stops the run: no later event is processed. -/
def runA (send_request : Bool) : (Nat → Bool) → Bool → List Event → RunResult
  | _, g, [] => ⟨[], false, g⟩
  | sends, g, e :: es =>
    match step send_request (sends 0) g e with
    | none => ⟨[], true, g⟩
    | some gOut =>
      let r := runA send_request (fun i => sends (i + 1)) gOut.1 es
      ⟨gOut.2 ++ r.outputs, r.aborted, r.finalGot⟩

/-- A run in which every send_response call succeeds, as in the recorded
reproduction scenarios. -/
def sendAlwaysOk : Nat → Bool := fun _ => true

/-- Outputs of a full run of the event loop, starting from
got_response = false as in main, with all send_response calls
succeeding. -/
def runOutputs (send_request : Bool) (evs : List Event) : List Output :=
  (runA send_request sendAlwaysOk false evs).outputs

/-- Feasibility of an event list for a run of this binary: the
request_response behaviour delivers a Message::Response event only for a
request this node previously sent, and the only send_request call is made
by the ConnectionEstablished arm when the send_request flag is set.
The flag requested records whether such a call has already happened. -/
def feasibleFrom (send_request requested : Bool) : List Event → Bool
  | [] => true
  | e :: es =>
    (!isResponseEvent e || requested) &&
      feasibleFrom send_request (requested || (send_request && isEstablishedEvent e)) es

/- ------------------------------------------------------------------ -/
/- Helper lemmas -/
/- ------------------------------------------------------------------ -/

/-- Shifting the constant success oracle gives it back. -/
theorem sendAlwaysOk_shift : (fun i => sendAlwaysOk (i + 1)) = sendAlwaysOk :=
  rfl

/-- The constant success oracle approves the send at the head position. -/
theorem sendAlwaysOk_zero : sendAlwaysOk 0 = true :=
  rfl

/-- Characterization of read_response: it succeeds exactly when the stream
delivers at least n * 1024 bytes, in which case it consumes precisely the
first n * 1024 bytes. -/
theorem read_response_eq (n : Nat) (s : List Nat) :
    read_response n s =
      if n * 1024 ≤ s.length then some (s.take (n * 1024), s.drop (n * 1024))
      else none := by
  induction n generalizing s with
  | zero => simp [read_response]
  | succ m ih =>
    simp only [read_response]
    by_cases h : 1024 ≤ s.length
    · rw [show readExact 1024 s = some (s.take 1024, s.drop 1024) from
        if_pos h]
      rw [Option.some_bind, ih]
      by_cases h₂ : m * 1024 ≤ (s.drop 1024).length
      · rw [if_pos h₂]
        have h₃ : (m + 1) * 1024 ≤ s.length := by
          simp only [List.length_drop] at h₂; omega
        rw [if_pos h₃, Option.map_some']
        have hadd : (m + 1) * 1024 = 1024 + m * 1024 := by ring
        rw [hadd, List.take_add, List.drop_drop]
      · rw [if_neg h₂]
        have h₃ : ¬ (m + 1) * 1024 ≤ s.length := by
          simp only [List.length_drop] at h₂; omega
        rw [if_neg h₃, Option.map_none']
    · rw [show readExact 1024 s = none from if_neg h]
      rw [Option.none_bind]
      have h₃ : ¬ (m + 1) * 1024 ≤ s.length := by omega
      rw [if_neg h₃]

/-- The write_response loop produces exactly n * 1024 bytes. -/
theorem write_response_length (n : Nat) :
    (write_response n).length = n * 1024 := by
  induction n with
  | zero => rfl
  | succ m ih =>
    show (List.replicate 1024 1 ++ write_response m).length = (m + 1) * 1024
    rw [List.length_append, List.length_replicate, ih]
    ring

/-- Splitting a run (with all sends succeeding) at a list append. -/
theorem runA_append (send_request : Bool) (xs : List Event) :
    ∀ (ys : List Event) (g : Bool),
      runA send_request sendAlwaysOk g (xs ++ ys) =
        ⟨(runA send_request sendAlwaysOk g xs).outputs ++
            (runA send_request sendAlwaysOk
              (runA send_request sendAlwaysOk g xs).finalGot ys).outputs,
          (runA send_request sendAlwaysOk
            (runA send_request sendAlwaysOk g xs).finalGot ys).aborted,
          (runA send_request sendAlwaysOk
            (runA send_request sendAlwaysOk g xs).finalGot ys).finalGot⟩ := by
  induction xs with
  | nil => intro ys g; simp [runA]
  | cons e es ih =>
    intro ys g
    cases e <;>
      simp [runA, step, sendAlwaysOk_shift, sendAlwaysOk_zero, ih]

/-- The final got_response flag records exactly whether a Response event
occurred. -/
theorem runA_finalGot (send_request : Bool) (evs : List Event) :
    ∀ g, (runA send_request sendAlwaysOk g evs).finalGot =
      (g || evs.any isResponseEvent) := by
  induction evs with
  | nil => intro g; simp [runA]
  | cons e es ih =>
    intro g
    cases e <;>
      simp [runA, step, sendAlwaysOk_shift, sendAlwaysOk_zero, isResponseEvent, ih]

/-- Over a stretch of events containing no ConnectionClosed, the number of
outcome messages emitted equals the number of Response events. -/
theorem runA_outcome_count (send_request : Bool) (evs : List Event) :
    ∀ g, evs.all (fun e => !isClosedEvent e) = true →
      ((runA send_request sendAlwaysOk g evs).outputs.countP isOutcome) =
        evs.countP isResponseEvent := by
  induction evs with
  | nil => intro g _; simp [runA]
  | cons e es ih =>
    intro g h
    simp only [List.all_cons, Bool.and_eq_true] at h
    cases e with
    | connectionEstablished p =>
      cases send_request <;>
        simp [runA, step, sendAlwaysOk_shift, sendAlwaysOk_zero, isOutcome,
          isResponseEvent, List.countP_cons, ih _ h.2]
    | inboundRequest p =>
      simp [runA, step, sendAlwaysOk_shift, sendAlwaysOk_zero, isOutcome,
        isResponseEvent, List.countP_cons, ih _ h.2]
    | response p =>
      simp [runA, step, sendAlwaysOk_shift, sendAlwaysOk_zero, isOutcome,
        isResponseEvent, List.countP_cons, ih _ h.2]
    | connectionClosed p =>
      exact absurd h.1 (by simp [isClosedEvent])
    | other =>
      simp [runA, step, sendAlwaysOk_shift, sendAlwaysOk_zero, isOutcome,
        isResponseEvent, List.countP_cons, ih _ h.2]

/-- With the send_request flag unset, a run over events containing no
Response event emits no outcome message at all. -/
theorem runA_receiver_silent (evs : List Event) :
    ∀ (sends : Nat → Bool) (g : Bool),
      (∀ e ∈ evs, isResponseEvent e = false) →
      ((runA false sends g evs).outputs.countP isOutcome) = 0 := by
  induction evs with
  | nil => intro sends g _; simp [runA]
  | cons e es ih =>
    intro sends g h
    have hes : ∀ e ∈ es, isResponseEvent e = false := fun x hx =>
      h x (List.mem_cons_of_mem _ hx)
    cases e with
    | connectionEstablished p =>
      simp [runA, step, isOutcome, List.countP_cons, ih _ _ hes]
    | inboundRequest p =>
      cases hs : sends 0 <;>
        simp [runA, step, hs, isOutcome, List.countP_cons, ih _ _ hes]
    | response p =>
      exact absurd (h _ (List.mem_cons_self _ _)) (by simp [isResponseEvent])
    | connectionClosed p =>
      simp [runA, step, isOutcome, List.countP_cons, ih _ _ hes]
    | other =>
      simp [runA, step, isOutcome, List.countP_cons, ih _ _ hes]

/-- With the send_request flag unset, feasibility forbids Response events:
the node never calls send_request, so the behaviour never delivers a
response. -/
theorem feasible_false_no_response (evs : List Event) :
    feasibleFrom false false evs = true →
      ∀ e ∈ evs, isResponseEvent e = false := by
  induction evs with
  | nil => intro _ e he; cases he
  | cons e es ih =>
    intro h x hx
    simp only [feasibleFrom, Bool.false_and, Bool.or_false, Bool.or_false,
      Bool.and_eq_true] at h
    rcases List.mem_cons.mp hx with hx | hx
    · subst hx
      rcases h with ⟨h₁, _⟩
      cases hr : isResponseEvent x
      · rfl
      · rw [hr] at h₁; simp at h₁
    · exact ih h.2 x hx

/- ------------------------------------------------------------------ -/
/- Claims -/
/- ------------------------------------------------------------------ -/

/-- Claim C1: for every size n ≥ 1 and every stream that closes after
delivering fewer than n * 1024 bytes, read_response fails with an io error
and never returns a truncated success; it returns Ok exactly when all n
chunks of 1024 bytes were fully read. -/
theorem C1_read_response_fails_on_short_stream (n : Nat) (s : List Nat)
    (h : 1 ≤ n) :
    read_response n s = none ↔ s.length < n * 1024 := by
  rw [read_response_eq]
  by_cases hle : n * 1024 ≤ s.length
  · rw [if_pos hle]
    simp only [reduceCtorEq, false_iff]
    omega
  · rw [if_neg hle]
    simp only [true_iff]
    omega

/-- Witness for C1 at n = 1 and the empty (immediately closed) stream. -/
theorem C1_witness :
    1 ≤ 1 ∧ (read_response 1 [] = none ↔ List.length ([] : List Nat) < 1 * 1024) :=
  ⟨by decide, C1_read_response_fails_on_short_stream 1 [] (by decide)⟩

/-- Claim C5: for every size n ≥ 1, writing a body with write_response and
reading it back with read_response of the same size over a loopback stream
succeeds, and the reader consumes byte-for-byte exactly the n * 1024 bytes
the writer produced (nothing is left unread). -/
theorem C5_roundtrip (n : Nat) (h : 1 ≤ n) :
    read_response n (write_response n) = some (write_response n, []) ∧
    (write_response n).length = n * 1024 := by
  refine ⟨?_, write_response_length n⟩
  rw [read_response_eq, if_pos (le_of_eq (write_response_length n).symm)]
  rw [show n * 1024 = (write_response n).length from (write_response_length n).symm]
  rw [List.take_length, List.drop_length]

/-- Witness for C5 at n = 1. -/
theorem C5_witness :
    1 ≤ 1 ∧ (read_response 1 (write_response 1) = some (write_response 1, []) ∧
      (write_response 1).length = 1 * 1024) :=
  ⟨by decide, C5_roundtrip 1 (by decide)⟩

/-- Claim C8: requests carry an empty body: write_request writes zero bytes
and always returns Ok, and read_request consumes zero bytes from any stream
and always returns Ok, for every value of message_size_in_kilobyte. -/
theorem C8_empty_request (n : Nat) (s : List Nat) :
    write_request n = [] ∧ read_request n s = some ([], s) :=
  ⟨rfl, rfl⟩

/-- Claim C9: the codec accepts a transfer size of zero: with
message_size_in_kilobyte = 0, write_response writes zero bytes and returns
Ok, and read_response reads zero bytes from any stream (including an
already-closed one, s = []) and returns Ok. -/
theorem C9_zero_size (s : List Nat) :
    write_response 0 = [] ∧ read_response 0 s = some ([], s) :=
  ⟨rfl, rfl⟩

/-- Claim C10: the result of read_response (an io result of unit in the
Rust code, here projected by mapping to unit) is independent of the values
of the bytes read: any two streams that each deliver at least n * 1024
bytes yield the same result Ok, whatever their contents. -/
theorem C10_content_independence (n : Nat) (s₁ s₂ : List Nat)
    (h₁ : n * 1024 ≤ s₁.length) (h₂ : n * 1024 ≤ s₂.length) :
    (read_response n s₁).map (fun _ => ()) = (read_response n s₂).map (fun _ => ()) ∧
    (read_response n s₁).map (fun _ => ()) = some () := by
  rw [read_response_eq, read_response_eq, if_pos h₁, if_pos h₂]
  exact ⟨rfl, rfl⟩

/-- Witness for C10 at n = 1 with an all-zeros and an all-sevens stream. -/
theorem C10_witness :
    1 * 1024 ≤ (List.replicate 1024 0).length ∧
    1 * 1024 ≤ (List.replicate 1024 7).length ∧
    ((read_response 1 (List.replicate 1024 0)).map (fun _ => ()) =
        (read_response 1 (List.replicate 1024 7)).map (fun _ => ()) ∧
      (read_response 1 (List.replicate 1024 0)).map (fun _ => ()) = some ()) :=
  ⟨by rw [List.length_replicate], by rw [List.length_replicate],
    C10_content_independence 1 (List.replicate 1024 0) (List.replicate 1024 7)
      (by rw [List.length_replicate]) (by rw [List.length_replicate])⟩

/-- Counterexample to claim C2: with the send_request flag set, the run
that delivers two ConnectionClosed events for the same peer reports
ClosedBeforeResponse twice.  The code records nothing on ConnectionClosed
(got_response is never set there), so the outcome decided by the first
ConnectionClosed event is re-reported by the second, contradicting the
claim that no second outcome message is emitted for that peer. -/
theorem C2_counterexample :
    runOutputs true [Event.connectionClosed 0, Event.connectionClosed 0] =
      [Output.closedBeforeResponse, Output.closedBeforeResponse] := by
  rfl

/-- Claim C2 as amended: once ResponseObserved has been recorded (the
got_response flag is set by a Response event), the flag stays set for the
rest of the run and no ClosedBeforeResponse message is ever emitted
afterwards, for any send_request flag and any outcomes of the
send_response calls.  The original per-peer idempotence does not hold:
ClosedBeforeResponse is never recorded, so repeated ConnectionClosed
events each re-report it, and a duplicate Response event re-prints the
ResponseObserved message. -/
theorem C2_amended_response_sticky (flag : Bool) (sends : Nat → Bool)
    (evs : List Event) :
    Output.closedBeforeResponse ∉ (runA flag sends true evs).outputs ∧
    (runA flag sends true evs).finalGot = true := by
  induction evs generalizing sends with
  | nil => simp [runA]
  | cons e es ih =>
    obtain ⟨ih₁, ih₂⟩ := ih (fun i => sends (i + 1))
    cases e with
    | connectionEstablished p => cases flag <;> simp_all [runA, step]
    | inboundRequest p => cases hs : sends 0 <;> simp_all [runA, step]
    | response p => simp_all [runA, step]
    | connectionClosed p => simp_all [runA, step]
    | other => simp_all [runA, step]

/-- Claim C3: in the initiating role, over a well-formed event sequence of
a single connection (the events of its lifetime, none of them a
ConnectionClosed and at most one of them a Response since exactly one
request is issued, followed by the connection's ConnectionClosed), exactly
one of the two human-readable outcome messages is emitted over the whole
run: never zero and never two. -/
theorem C3_exactly_one_outcome (p : Nat) (middle : List Event)
    (hclosed : middle.all (fun e => !isClosedEvent e) = true)
    (hresp : middle.countP isResponseEvent ≤ 1) :
    (runOutputs true (middle ++ [Event.connectionClosed p])).countP isOutcome
      = 1 := by
  unfold runOutputs
  rw [runA_append]
  cases hany : middle.any isResponseEvent with
  | true =>
    have h₁ : 0 < middle.countP isResponseEvent := by
      rw [List.countP_pos_iff]
      obtain ⟨x, hx, hpx⟩ := List.any_eq_true.mp hany
      exact ⟨x, hx, hpx⟩
    have h₂ : middle.countP isResponseEvent = 1 := by omega
    simp [List.countP_append, runA_outcome_count true middle false hclosed, h₂,
      runA, step, sendAlwaysOk_shift, sendAlwaysOk_zero, isOutcome,
      runA_finalGot, hany]
  | false =>
    have h₂ : middle.countP isResponseEvent = 0 := by
      rw [List.countP_eq_zero]
      intro x hx
      exact List.any_eq_false.mp hany x hx
    simp [List.countP_append, runA_outcome_count true middle false hclosed, h₂,
      runA, step, sendAlwaysOk_shift, sendAlwaysOk_zero, isOutcome,
      runA_finalGot, hany]

/-- Witness for C3: the run that gets its response and then sees the
connection close emits exactly one outcome message. -/
theorem C3_witness :
    ([Event.connectionEstablished 0, Event.response 0].all
        (fun e => !isClosedEvent e)) = true ∧
    [Event.connectionEstablished 0, Event.response 0].countP isResponseEvent
      ≤ 1 ∧
    (runOutputs true ([Event.connectionEstablished 0, Event.response 0] ++
        [Event.connectionClosed 0])).countP isOutcome = 1 :=
  ⟨by decide, by decide,
    C3_exactly_one_outcome 0 [Event.connectionEstablished 0, Event.response 0]
      (by decide) (by decide)⟩

/-- Counterexample to claim C4: in the initiating role, after a Response
from peer 0, the ConnectionClosed event for the distinct peer 1 reports
nothing, although no ResponseObserved was ever recorded for peer 1 (peer 1
appears in no Response event).  The got_response flag is global, not
per-peer, so the claimed per-peer condition fails. -/
theorem C4_counterexample :
    runOutputs true [Event.response 0, Event.connectionClosed 1] =
        [Output.responseObserved] ∧
      Event.response 1 ∉ [Event.response 0] :=
  ⟨rfl, by decide⟩

/-- Claim C4 as amended: on every ConnectionClosed event, the driver
reports ClosedBeforeResponse if and only if the process is the initiator
and no Response event from any peer has occurred earlier in the run (the
got_response flag is global rather than per-peer); nothing is recorded by
the ConnectionClosed arm itself, and the rest of the run continues from
the unchanged flag. -/
theorem C4_amended_global_condition (flag : Bool) (p : Nat)
    (pre post : List Event) :
    runOutputs flag (pre ++ Event.connectionClosed p :: post) =
      runOutputs flag pre ++
        (if !(pre.any isResponseEvent) && flag
          then [Output.closedBeforeResponse] else []) ++
        (runA flag sendAlwaysOk (pre.any isResponseEvent) post).outputs := by
  unfold runOutputs
  rw [show pre ++ Event.connectionClosed p :: post =
      pre ++ ([Event.connectionClosed p] ++ post) from rfl]
  rw [runA_append, runA_append, runA_finalGot]
  simp [runA, step, sendAlwaysOk_shift, sendAlwaysOk_zero, runA_finalGot]

/-- Claim C6: with the send_request flag unset (the receiving side), no
race outcome is ever computed or reported: over any feasible event list
(the behaviour delivers Response events only for requests this node sent,
and this node sends none), the run emits neither outcome message. -/
theorem C6_receiver_never_reports (evs : List Event)
    (h : feasibleFrom false false evs = true) :
    (runOutputs false evs).countP isOutcome = 0 :=
  runA_receiver_silent evs sendAlwaysOk false (feasible_false_no_response evs h)

/-- Witness for C6: the receiving side of a full exchange emits no outcome
message. -/
theorem C6_witness :
    feasibleFrom false false
        [Event.connectionEstablished 0, Event.inboundRequest 0,
          Event.connectionClosed 0] = true ∧
    (runOutputs false
        [Event.connectionEstablished 0, Event.inboundRequest 0,
          Event.connectionClosed 0]).countP isOutcome = 0 :=
  ⟨by decide,
    C6_receiver_never_reports
      [Event.connectionEstablished 0, Event.inboundRequest 0,
        Event.connectionClosed 0] (by decide)⟩

/-- Claim C7: on every InboundRequest event the reply is issued
immediately: when the send succeeds, sendResponse is the first and only
action of that event-handling step, the got_response state is untouched,
and the run continues; when the send fails, the unwrap panics and the run
aborts at once, emitting nothing from this step on — the failure is not
retried, not recovered, and never converted into a race outcome
message. -/
theorem C7_reply_immediate_failure_fatal (flag : Bool) (sends : Nat → Bool)
    (g : Bool) (p : Nat) (es : List Event) :
    runA flag sends g (Event.inboundRequest p :: es) =
      if sends 0 then
        ⟨Output.sendResponse ::
            (runA flag (fun i => sends (i + 1)) g es).outputs,
          (runA flag (fun i => sends (i + 1)) g es).aborted,
          (runA flag (fun i => sends (i + 1)) g es).finalGot⟩
      else ⟨[], true, g⟩ := by
  cases hs : sends 0 <;> simp [runA, step, hs]

end Libp2pBugExample
